import Mathlib

/-!
# Verification of the CAENHV control layer (`src/CAENHV.py`)

Shallow embedding of the connection lifecycle guard (`auto_connect_disconnect`,
`reconfig`, `disconnect`), the channel parameter accessors
(`read_channel_param`, `set_channel_param`), the ramp-aware setpoint sequencer
(`set_channel_HV`) and the crate sweep (`power_down_all_channels`).

Vendor calls (`caen_libs.caenhvwrapper`) are modelled through explicit
environment records giving the outcome each call would produce; numeric
parameter values are modelled as rationals, channel Status words as naturals.
Observable effects (vendor writes, sleeps, connection-management calls) are
returned as explicit traces.
-/

namespace CAENHV

/-- Channel parameter access mode, mirroring `hvwrapper.ParamMode`. -/
inductive ParamMode
  | RDONLY
  | WRONLY
  | RDWR
  deriving DecidableEq, Repr

/-- Round a rational to the nearest integer, ties to even: the semantics of
the Python builtin `round`. -/
def roundHalfEven (q : ℚ) : ℤ :=
  if q - ⌊q⌋ < 1/2 then ⌊q⌋
  else if 1/2 < q - ⌊q⌋ then ⌊q⌋ + 1
  else if ⌊q⌋ % 2 = 0 then ⌊q⌋ else ⌊q⌋ + 1

/-- Python `round(x, 2)`: round to two decimal places, ties to even. -/
def pyRound2 (q : ℚ) : ℚ := (roundHalfEven (q * 100) : ℚ) / 100

/-- A vendor value-level call on a channel parameter: `device.get_ch_param`
or `device.set_ch_param`. The metadata lookups (`get_ch_param_info`,
`get_ch_param_prop`) are modelled as environment data, not as value calls. -/
inductive VendorValueCall
  | getChParam
  | setChParam (value : ℚ)
  deriving DecidableEq, Repr

/-- The `KeyError` exceptions raised by `read_channel_param` and
`set_channel_param`. -/
inductive ParamErr
  | paramNotFound
  | paramModeWrong
  deriving DecidableEq, Repr

/-- Environment of a single channel-parameter access: whether the name is in
`device.get_ch_param_info(slot, ch)`, the `ParamMode` from
`device.get_ch_param_prop`, and the value the vendor `get_ch_param` call
would return (`none` models `hvwrapper.Error` raised by the vendor read). -/
structure ChParamEnv where
  known : Bool
  mode : ParamMode
  readResult : Option ℚ
  deriving Repr

/-- `CAENHV.read_channel_param(slot, ch, param)`: raise `KeyError` if the
parameter is unknown; if its mode is not `WRONLY`, perform the vendor read and
return `round(value, 2)`, converting a vendor error into `none`; otherwise
raise `KeyError` without performing the vendor read. Returns the Python
result (or exception) together with the vendor value calls performed. -/
def read_channel_param (env : ChParamEnv) :
    Except ParamErr (Option ℚ) × List VendorValueCall :=
  if env.known = false then (.error .paramNotFound, [])
  else if env.mode ≠ ParamMode.WRONLY then
    match env.readResult with
    | some v => (.ok (some (pyRound2 v)), [.getChParam])
    | none => (.ok none, [.getChParam])
  else (.error .paramModeWrong, [])

/-- `CAENHV.set_channel_param(slot, ch, param, value)`: raise `KeyError` if
the parameter is unknown; if its mode is not `WRONLY`, perform the vendor
write; otherwise raise `KeyError` without writing. Note the source guards the
write with `mode is not WRONLY`, the same test `read_channel_param` uses. -/
def set_channel_param (env : ChParamEnv) (value : ℚ) :
    Except ParamErr Unit × List VendorValueCall :=
  if env.known = false then (.error .paramNotFound, [])
  else if env.mode ≠ ParamMode.WRONLY then (.ok (), [.setChParam value])
  else (.error .paramModeWrong, [])

/-! ## The ramp-aware setpoint sequencer `set_channel_HV` -/

/-- Outcome of one vendor `device.get_ch_param(slot, [ch], name)[0]` read:
`raised` models `hvwrapper.Error` raised by the vendor call — the failure
mode `read_channel_param` catches and converts to `None` but that
`set_channel_HV` does not catch — and `val v` a completed call whose first
list element is `v`, where `v = none` is the `None` return the `is None`
checks in `set_channel_HV` test for. -/
inductive ReadRes (α : Type)
  | raised
  | val (v : Option α)
  deriving DecidableEq, Repr

/-- The four channel reads `set_channel_HV` performs, in source order:
Status (the integer status word), then VMon, RUp, RDWn. -/
structure ChRead where
  status : ReadRes ℕ
  vmon : ReadRes ℚ
  rup : ReadRes ℚ
  rdwn : ReadRes ℚ
  deriving Repr

/-- A vendor write issued by `set_channel_HV`. -/
inductive HVWrite
  | v0Set (value : ℚ)
  | pw (enabled : Bool)
  deriving DecidableEq, Repr

/-- How a `set_channel_HV` call that returned normally ended: aborted with a
warning print, updated only `V0Set` because the channel status was the
reserved fault code 255, or ran the full sequence with the computed
`nsecond` wait. -/
inductive HVOutcome
  | abortedWarning
  | partialOnlyV0Set
  | completed (nsecond : ℤ)
  deriving DecidableEq, Repr

/-- The exceptions a `set_channel_HV` call can raise: Python
`ZeroDivisionError` from dividing the voltage delta by a zero ramp rate,
and `hvwrapper.Error` escaping from an uncaught vendor read — the body has
no `try/except` around its `get_ch_param` calls. -/
inductive HVErr
  | zeroDivisionError
  | vendorError
  deriving DecidableEq, Repr

/-- Observable behaviour of one `set_channel_HV` call: the vendor writes
issued, the `time.sleep` durations (in seconds), and the outcome or
escaping exception. -/
structure HVResult where
  writes : List HVWrite
  sleeps : List ℤ
  outcome : Except HVErr HVOutcome
  deriving Repr

/-- `CAENHV.set_channel_HV(slot, ch, hv_value)` over the channel reads `st`:
read Status with the raw vendor call (a raising read escapes uncaught;
abort with a warning if the value is `None`); if Status is 255 update only
`V0Set`; read VMon, then RUp, then RDWn the same way (a raising read
escapes at that point, before the later reads; abort with a warning if any
value is `None`); compute `nsecond = ceil(delta / (rate *
division_factor))` with `division_factor = 1.0` (Python raises
`ZeroDivisionError` when the rate is zero, before any write); write
`V0Set`; write `Pw := True` when `status & 0x1 == 0`; sleep `nsecond + 2`. -/
def set_channel_HV (st : ChRead) (hv_value : ℚ) : HVResult :=
  match st.status with
  | .raised => ⟨[], [], .error .vendorError⟩
  | .val none => ⟨[], [], .ok .abortedWarning⟩
  | .val (some status) =>
    if status = 255 then
      ⟨[HVWrite.v0Set hv_value], [], .ok .partialOnlyV0Set⟩
    else
      match st.vmon with
      | .raised => ⟨[], [], .error .vendorError⟩
      | .val vm =>
        match st.rup with
        | .raised => ⟨[], [], .error .vendorError⟩
        | .val ru => match st.rdwn with
          | .raised => ⟨[], [], .error .vendorError⟩
          | .val rd => match vm, ru, rd with
            | some current_hv, some ramp_up, some ramp_down =>
              let division_factor : ℚ := 1
              if hv_value > current_hv then
                if ramp_up * division_factor = 0 then
                  ⟨[], [], .error .zeroDivisionError⟩
                else
                  let nsecond : ℤ :=
                    ⌈(hv_value - current_hv) / (ramp_up * division_factor)⌉
                  ⟨HVWrite.v0Set hv_value ::
                      (if status &&& 1 = 0 then [HVWrite.pw true] else []),
                    [nsecond + 2], .ok (.completed nsecond)⟩
              else
                if ramp_down * division_factor = 0 then
                  ⟨[], [], .error .zeroDivisionError⟩
                else
                  let nsecond : ℤ :=
                    ⌈(current_hv - hv_value) / (ramp_down * division_factor)⌉
                  ⟨HVWrite.v0Set hv_value ::
                      (if status &&& 1 = 0 then [HVWrite.pw true] else []),
                    [nsecond + 2], .ok (.completed nsecond)⟩
            | _, _, _ => ⟨[], [], .ok .abortedWarning⟩

/-! ## The connection lifecycle guard -/

/-- The Python exceptions relevant to the lifecycle guard. `dispatched` is the
`RuntimeError` raised by `reconfig` during the cool-down window;
`vendorError` is an `hvwrapper.Error` from a vendor call (in `caen_libs`
these derive from `RuntimeError`); `connectFailure` is the `RuntimeError`
the decorator raises, with the error it caught chained as its cause
(`raise ... from e`); `opError` stands for an exception raised by the
wrapped operation itself. -/
inductive GErr
  | dispatched
  | vendorError
  | connectFailure (cause : GErr)
  | opError (code : ℕ)
  deriving DecidableEq, Repr

/-- A vendor connection-management call. -/
inductive VCall
  | openCall
  | crateMapCall
  | closeCall
  deriving DecidableEq, Repr

/-- Outcomes the vendor library would produce for each connection-management
call. A failing call raises `hvwrapper.Error` (a `RuntimeError` subclass). -/
structure GEnv where
  openFails : Bool
  crateMapFails : Bool
  closeFails : Bool
  deriving DecidableEq, Repr

/-- The controller state the guard manipulates: whether `self.device` holds a
handle (`true`) or is `None` (`false`), the `self._dispatched_until`
timestamp, and the rest of the controller state `aux`, which the guard never
touches. -/
structure Ctrl (σ : Type) where
  device : Bool
  dispatchedUntil : ℚ
  aux : σ

/-- `CAENHV.reconfig()` at clock `now`: refuse with the dispatched
`RuntimeError` while `self._dispatched_until > time.time()`; otherwise call
`hvwrapper.Device.open` (on failure the exception propagates with the state
unchanged), assign `self.device`, then call `get_crate_map` (on failure the
exception propagates with the handle already assigned). Returns the updated
state, the escaping exception if any, and the vendor calls performed. -/
def reconfig (now : ℚ) (env : GEnv) (s : Ctrl σ) :
    Ctrl σ × Option GErr × List VCall :=
  if s.dispatchedUntil > now then
    (s, some .dispatched, [])
  else if env.openFails then
    (s, some .vendorError, [.openCall])
  else if env.crateMapFails then
    ({ s with device := true }, some .vendorError, [.openCall, .crateMapCall])
  else
    ({ s with device := true }, none, [.openCall, .crateMapCall])

/-- `CAENHV.disconnect()`: attempt `self.device.close()` inside a
`try/except Exception` (when the handle is `None` the attribute access
raises `AttributeError`, also caught; vendor errors are caught and only
logged), and the `finally` block always clears `self.device` to `None`.
The call never raises. -/
def disconnect (env : GEnv) (s : Ctrl σ) : Ctrl σ × Option GErr × List VCall :=
  if s.device then
    if env.closeFails then
      ({ s with device := false }, none, [VCall.closeCall])
    else
      ({ s with device := false }, none, [VCall.closeCall])
  else
    ({ s with device := false }, none, [])

/-- The body of the decorator on the path where this invocation connected:
`try: result = func(...) finally: self.disconnect()` with disconnect errors
swallowed (`disconnect` never raises in any case). The wrapped operation `f`
acts on the non-connection state and may raise. -/
def wrapperBody (f : σ → σ × Option GErr) (env : GEnv) (s1 : Ctrl σ)
    (calls : List VCall) : Ctrl σ × Option GErr × List VCall :=
  let fa := f s1.aux
  let d := disconnect env { s1 with aux := fa.1 }
  (d.1, fa.2, calls ++ d.2.2)

/-- The `auto_connect_disconnect` decorator applied to an operation `f` on
the non-connection state (no guarded operation in the source assigns
`self.device`). If a handle exists, just run `f`. Otherwise call
`reconfig`; a `RuntimeError` from it (every error it raises is one) is
caught, and if the device is still `None` the decorator raises its own
`RuntimeError` chained from the caught one; then run `f` and, because this
invocation connected, disconnect afterwards on every exit path. -/
def wrapper (f : σ → σ × Option GErr) (now : ℚ) (env : GEnv) (s : Ctrl σ) :
    Ctrl σ × Option GErr × List VCall :=
  if s.device then
    let fa := f s.aux
    ({ s with aux := fa.1 }, fa.2, [])
  else
    let r := reconfig now env s
    match r.2.1 with
    | some e =>
      if r.1.device = false then
        (r.1, some (.connectFailure e), r.2.2)
      else
        wrapperBody f env r.1 r.2.2
    | none => wrapperBody f env r.1 r.2.2

/-! ## The crate sweep `power_down_all_channels` -/

/-- A board as exposed by the crate map: its channel count and the Status
word each `device.get_ch_param(slot, [ch], 'Status')[0]` read would return
(`none` models an unreadable Status). -/
structure Board where
  n_channel : ℕ
  status : ℕ → Option ℕ

/-- The inner loop of `power_down_all_channels` over the channel list of the
board in `slot`: collects the `Pw := False` writes (issued when
`status & 0x1 == 1`) and reports whether the loop ran to completion — an
unreadable Status makes `status & 0x1` raise `TypeError`, aborting the
sweep with the earlier writes already issued. -/
def pdChans (slot : ℕ) (b : Board) : List ℕ → List (ℕ × ℕ) × Bool
  | [] => ([], true)
  | ch :: rest =>
    match b.status ch with
    | none => ([], false)
    | some st =>
      let r := pdChans slot b rest
      (if st &&& 1 = 1 then (slot, ch) :: r.1 else r.1, r.2)

/-- The outer loop of `power_down_all_channels` over
`enumerate(self.slots)` starting at slot index `slot`, skipping empty
slots. -/
def pdSlots : ℕ → List (Option Board) → List (ℕ × ℕ) × Bool
  | _, [] => ([], true)
  | slot, none :: rest => pdSlots (slot + 1) rest
  | slot, some b :: rest =>
    let r := pdChans slot b (List.range b.n_channel)
    if r.2 then
      let r2 := pdSlots (slot + 1) rest
      (r.1 ++ r2.1, r2.2)
    else r

/-- `CAENHV.power_down_all_channels()`: the `(slot, ch)` pairs receiving a
`Pw := False` write, in order, and whether the sweep completed. -/
def power_down_all_channels (slots : List (Option Board)) :
    List (ℕ × ℕ) × Bool :=
  pdSlots 0 slots

/-- Every Status of every present board is readable. -/
def allReadable (slots : List (Option Board)) : Bool :=
  slots.all fun ob =>
    match ob with
    | none => true
    | some b => (List.range b.n_channel).all fun ch => (b.status ch).isSome

/-- A two-channel demonstration board: channel 0 is on (status bit 0 set),
channel 1 is off. -/
def demoBoard : Board :=
  ⟨2, fun ch => if ch = 0 then some 1 else some 0⟩

/-- A demonstration crate: an empty slot 0 and `demoBoard` in slot 1. -/
def demoCrate : List (Option Board) := [none, some demoBoard]

/-! ## Theorems -/

/-- C2. When the channel status read returns the reserved fault code 255,
`set_channel_HV` performs exactly one write — the `V0Set` setpoint — issues
no power-enable write and no sleep, and reports the partial outcome. -/
theorem set_channel_HV_fault_partial (st : ChRead) (hv : ℚ)
    (h : st.status = .val (some 255)) :
    set_channel_HV st hv =
      ⟨[HVWrite.v0Set hv], [], .ok .partialOnlyV0Set⟩ := by
  simp [set_channel_HV, h]

/-- Witness for C2 at a concrete fault-state channel. -/
theorem set_channel_HV_fault_partial_witness :
    set_channel_HV ⟨.val (some 255), .val none, .val none, .val none⟩ 50 =
      ⟨[HVWrite.v0Set 50], [], .ok .partialOnlyV0Set⟩ :=
  set_channel_HV_fault_partial ⟨.val (some 255), .val none, .val none,
    .val none⟩ 50 rfl

/-- C3 (code bug). `read_channel_param` on a write-only parameter does raise
`KeyError` with no vendor value read; but `set_channel_param` on a read-only
parameter performs the vendor write and raises nothing, and it instead
raises on a write-only parameter: the `mode is not WRONLY` guard of the
read path was reused unchanged for the write path. -/
theorem set_channel_param_readonly_bug :
    read_channel_param ⟨true, ParamMode.WRONLY, none⟩ =
        (.error .paramModeWrong, []) ∧
      set_channel_param ⟨true, ParamMode.RDONLY, none⟩ 10 =
        (.ok (), [.setChParam 10]) ∧
      set_channel_param ⟨true, ParamMode.WRONLY, none⟩ 10 =
        (.error .paramModeWrong, []) := by
  refine ⟨rfl, rfl, rfl⟩

/-- C6 (code bug). An unreadable precondition read does not give the
claimed warning-abort: the vendor failure mode of `get_ch_param` is to
raise `hvwrapper.Error` — the convention `read_channel_param` documents by
catching exactly that and converting it to `None` — and `set_channel_HV`
wraps none of its reads in `try/except`, so the exception escapes to the
caller (first conjunct: a raising Status read; second: a raising VMon read
on a non-fault channel). No writes are performed, but there is no warning
outcome and an exception does escape. Only on the `None`-return value that
the `is None` checks test for — not a failure mode the vendor calls in
this codebase exhibit — does the code abort with the warning (third
conjunct), which is what the claim and the spec describe. -/
theorem set_channel_HV_read_raise_escapes :
    set_channel_HV ⟨.raised, .val (some 20), .val (some 30), .val (some 5)⟩
        100 = ⟨[], [], .error .vendorError⟩ ∧
      set_channel_HV ⟨.val (some 1), .raised, .val (some 30), .val (some 5)⟩
        100 = ⟨[], [], .error .vendorError⟩ ∧
      set_channel_HV ⟨.val none, .val (some 20), .val (some 30),
        .val (some 5)⟩ 100 = ⟨[], [], .ok .abortedWarning⟩ :=
  ⟨rfl, rfl, rfl⟩

/-- C7. With a readable non-fault status, readable VMon and RDWn, a zero
ramp-up rate and a target above the current voltage, `set_channel_HV`
raises the division-by-zero error before performing any write or sleep. -/
theorem set_channel_HV_zero_ramp (st : ChRead) (hv c rd : ℚ) (s : ℕ)
    (hs : st.status = .val (some s)) (h255 : s ≠ 255)
    (hc : st.vmon = .val (some c)) (hru : st.rup = .val (some 0))
    (hrd : st.rdwn = .val (some rd)) (hgt : hv > c) :
    set_channel_HV st hv = ⟨[], [], .error .zeroDivisionError⟩ := by
  simp [set_channel_HV, hs, h255, hc, hru, hrd, hgt]

/-- Witness for C7: target 100 above current 20 with a zero ramp-up rate. -/
theorem set_channel_HV_zero_ramp_witness :
    set_channel_HV ⟨.val (some 1), .val (some 20), .val (some 0),
        .val (some 5)⟩ 100 = ⟨[], [], .error .zeroDivisionError⟩ :=
  set_channel_HV_zero_ramp ⟨.val (some 1), .val (some 20), .val (some 0),
    .val (some 5)⟩ 100 20 5 1 rfl (by decide) rfl rfl rfl (by norm_num)

/-- C1. On a channel with readable non-fault status, readable VMon and
nonzero readable ramp rates, `set_channel_HV` computes the wait as
`ceil((target - current) / rampUpRate)` when the target exceeds the current
voltage and `ceil((current - target) / rampDownRate)` otherwise, writes the
setpoint (plus a power-enable if the on-bit is clear), and sleeps exactly
the wait plus the fixed 2-second margin. -/
theorem set_channel_HV_wait (st : ChRead) (hv c ru rd : ℚ) (s : ℕ)
    (hs : st.status = .val (some s)) (h255 : s ≠ 255)
    (hc : st.vmon = .val (some c)) (hru : st.rup = .val (some ru))
    (hrd : st.rdwn = .val (some rd))
    (hup : hv > c → ru ≠ 0) (hdn : ¬hv > c → rd ≠ 0) :
    set_channel_HV st hv =
      ⟨HVWrite.v0Set hv :: (if s &&& 1 = 0 then [HVWrite.pw true] else []),
        [(if hv > c then ⌈(hv - c) / ru⌉ else ⌈(c - hv) / rd⌉) + 2],
        .ok (.completed
          (if hv > c then ⌈(hv - c) / ru⌉ else ⌈(c - hv) / rd⌉))⟩ := by
  by_cases hgt : hv > c
  · have hne : ru ≠ 0 := hup hgt
    simp [set_channel_HV, hs, h255, hc, hru, hrd, hgt, hne]
  · have hne : rd ≠ 0 := hdn hgt
    simp [set_channel_HV, hs, h255, hc, hru, hrd, hgt, hne]

/-- Witness for C1 at the documented example: target 100, current 20,
ramp-up 30 on a powered channel give wait 3 and total sleep 5. -/
theorem set_channel_HV_wait_witness :
    set_channel_HV ⟨.val (some 1), .val (some 20), .val (some 30),
        .val (some 5)⟩ 100 = ⟨[HVWrite.v0Set 100], [5], .ok (.completed 3)⟩ := by
  have h := set_channel_HV_wait ⟨.val (some 1), .val (some 20), .val (some 30),
      .val (some 5)⟩ 100 20 30 5 1
    rfl (by decide) rfl rfl rfl (fun _ => by norm_num)
    (fun hlt => absurd (by norm_num) hlt)
  have hceil : ⌈(8 / 3 : ℚ)⌉ = 3 := by
    rw [Int.ceil_eq_iff]
    norm_num
  rw [h]
  norm_num [hceil]

/-- C4 counterexample. With the connection closed and the clock strictly
before the refuse-until timestamp, the error the guarded call raises to its
caller is the generic connect-failure `RuntimeError` of the decorator (with
the dispatched error chained as its cause), not the distinct dispatched
error itself. -/
theorem guard_dispatched_counterexample :
    (wrapper (fun (a : Unit) => (a, none)) 5 ⟨false, false, false⟩
        ⟨false, 10, ()⟩).2.1 = some (GErr.connectFailure .dispatched) ∧
      some (GErr.connectFailure .dispatched) ≠ some GErr.dispatched := by
  refine ⟨by decide, by decide⟩

/-- C4 amended. At a time strictly before the refuse-until timestamp,
`reconfig` raises the dispatched error with no vendor open call and the
connection still closed; invoked through the lifecycle guard, the guard
catches that error and raises its generic connect-failure error to the
caller, chaining the dispatched error as the cause, still with no open
call attempted and the connection still closed. -/
theorem guard_dispatched (f : σ → σ × Option GErr) (now : ℚ) (env : GEnv)
    (s : Ctrl σ) (hdev : s.device = false) (hdisp : s.dispatchedUntil > now) :
    reconfig now env s = (s, some .dispatched, []) ∧
      wrapper f now env s = (s, some (.connectFailure .dispatched), []) := by
  have hr : reconfig now env s = (s, some .dispatched, []) := by
    simp [reconfig, hdisp]
  refine ⟨hr, ?_⟩
  simp [wrapper, hdev, hr]

/-- Witness for the amended C4 at a concrete dispatched controller. -/
theorem guard_dispatched_witness :
    reconfig 5 ⟨false, false, false⟩ (⟨false, 10, ()⟩ : Ctrl Unit) =
        (⟨false, 10, ()⟩, some .dispatched, []) ∧
      wrapper (fun (a : Unit) => (a, none)) 5 ⟨false, false, false⟩
          ⟨false, 10, ()⟩ =
        (⟨false, 10, ()⟩, some (.connectFailure .dispatched), []) :=
  guard_dispatched (fun (a : Unit) => (a, none)) 5 ⟨false, false, false⟩
    ⟨false, 10, ()⟩ rfl (by norm_num)

/-- C5. The lifecycle guard preserves the connection state: a connection
open before a guarded call is still open when it returns, and a connection
closed before the call is closed again when it returns, on every exit path
(operation succeeded or raised, reconnection succeeded or failed). -/
theorem guard_preserves_device (f : σ → σ × Option GErr) (now : ℚ)
    (env : GEnv) (s : Ctrl σ) :
    (wrapper f now env s).1.device = s.device := by
  by_cases h : s.device
  · simp [wrapper, h]
  · by_cases h1 : s.dispatchedUntil > now
    · simp [wrapper, reconfig, h, h1]
    · by_cases h2 : env.openFails
      · simp [wrapper, reconfig, h, h1, h2]
      · by_cases h3 : env.crateMapFails <;>
          simp [wrapper, reconfig, wrapperBody, disconnect, h, h1, h2, h3]

/-- C8. When the guard itself opened the connection, a failing vendor close
afterwards is swallowed: the close call is attempted, yet the error the
guarded call reports is exactly the wrapped operation's own error (or
success); and `disconnect` on a closed or never-opened handle raises
nothing and performs no vendor close call. -/
theorem guard_close_swallowed (f : σ → σ × Option GErr) (now : ℚ)
    (s : Ctrl σ) (hdev : s.device = false)
    (hdisp : ¬s.dispatchedUntil > now) :
    (wrapper f now ⟨false, false, true⟩ s).2.1 = (f s.aux).2 ∧
      (wrapper f now ⟨false, false, true⟩ s).2.2 =
        [.openCall, .crateMapCall, .closeCall] ∧
      ∀ env : GEnv, (disconnect env s).2 = (none, []) := by
  refine ⟨?_, ?_, ?_⟩
  · simp [wrapper, reconfig, wrapperBody, disconnect, hdev, hdisp]
  · simp [wrapper, reconfig, wrapperBody, disconnect, hdev, hdisp]
  · intro env
    simp [disconnect, hdev]

/-- Witness for C8: a raising operation on a closed controller with a
failing close; the operation's error is what the guard reports. -/
theorem guard_close_swallowed_witness :
    (wrapper (fun (a : Unit) => (a, some (.opError 7))) 5 ⟨false, false, true⟩
        (⟨false, 0, ()⟩ : Ctrl Unit)).2.1 = some (.opError 7) ∧
      (wrapper (fun (a : Unit) => (a, some (.opError 7))) 5
          ⟨false, false, true⟩ (⟨false, 0, ()⟩ : Ctrl Unit)).2.2 =
        [.openCall, .crateMapCall, .closeCall] ∧
      ∀ env : GEnv,
        (disconnect env (⟨false, 0, ()⟩ : Ctrl Unit)).2 = (none, []) :=
  guard_close_swallowed (fun (a : Unit) => (a, some (.opError 7))) 5
    ⟨false, 0, ()⟩ rfl (by norm_num)

/-- C10. `disconnect` clears the device handle on every exit path — also
when the vendor close call raises — leaving the controller closed, and a
subsequent guarded operation (outside any cool-down window) attempts a
fresh vendor open. -/
theorem disconnect_clears (env env2 : GEnv) (s : Ctrl σ)
    (f : σ → σ × Option GErr) (now : ℚ)
    (hdisp : ¬s.dispatchedUntil > now) :
    (disconnect env s).1.device = false ∧
      VCall.openCall ∈ (wrapper f now env2 (disconnect env s).1).2.2 := by
  have hdc : (disconnect env s).1 = { s with device := false } := by
    by_cases h : s.device <;> by_cases h2 : env.closeFails <;>
      simp [disconnect, h, h2]
  refine ⟨by rw [hdc], ?_⟩
  rw [hdc]
  by_cases h2 : env2.openFails
  · simp [wrapper, reconfig, hdisp, h2]
  · by_cases h3 : env2.crateMapFails <;>
      simp [wrapper, reconfig, wrapperBody, disconnect, hdisp, h2, h3]

/-- Witness for C10: disconnect with a failing vendor close leaves the
controller closed, and the next guarded call attempts an open. -/
theorem disconnect_clears_witness :
    (disconnect ⟨false, false, true⟩ (⟨true, 0, ()⟩ : Ctrl Unit)).1.device =
        false ∧
      VCall.openCall ∈
        (wrapper (fun (a : Unit) => (a, none)) 5 ⟨false, false, false⟩
          (disconnect ⟨false, false, true⟩
            (⟨true, 0, ()⟩ : Ctrl Unit)).1).2.2 :=
  disconnect_clears ⟨false, false, true⟩ ⟨false, false, false⟩
    ⟨true, 0, ()⟩ (fun (a : Unit) => (a, none)) 5 (by norm_num)

/-- Over readable channels the inner power-down loop completes. -/
theorem pdChans_complete (slot : ℕ) (b : Board) (chs : List ℕ)
    (h : ∀ ch ∈ chs, (b.status ch).isSome = true) :
    (pdChans slot b chs).2 = true := by
  induction chs with
  | nil => rfl
  | cons ch rest ih =>
    obtain ⟨st0, hst0⟩ := Option.isSome_iff_exists.mp (h ch (by simp))
    have ihr := ih fun c hc => h c (by simp [hc])
    simp [pdChans, hst0, ihr]

/-- Membership in the write list of the inner power-down loop, over readable
channels: exactly the channels of the list whose status has bit 0 set. -/
theorem pdChans_mem (slot : ℕ) (b : Board) (chs : List ℕ) (a c : ℕ)
    (h : ∀ ch ∈ chs, (b.status ch).isSome = true) :
    (a, c) ∈ (pdChans slot b chs).1 ↔
      a = slot ∧ c ∈ chs ∧ ∃ st, b.status c = some st ∧ st &&& 1 = 1 := by
  induction chs with
  | nil => simp [pdChans]
  | cons ch rest ih =>
    obtain ⟨st0, hst0⟩ := Option.isSome_iff_exists.mp (h ch (by simp))
    have ih2 := ih fun x hx => h x (by simp [hx])
    simp only [pdChans, hst0]
    by_cases hbit : st0 &&& 1 = 1
    · simp only [if_pos hbit, List.mem_cons, ih2]
      constructor
      · rintro (hp | ⟨h1, h2, h3⟩)
        · obtain ⟨rfl, rfl⟩ := Prod.mk.injEq .. ▸ hp
          exact ⟨rfl, Or.inl rfl, st0, hst0, hbit⟩
        · exact ⟨h1, Or.inr h2, h3⟩
      · rintro ⟨rfl, hc | hc, st, hst, hb⟩
        · subst hc
          exact Or.inl rfl
        · exact Or.inr ⟨rfl, hc, st, hst, hb⟩
  -- a channel whose on-bit is clear is skipped
    · simp only [if_neg hbit, ih2, List.mem_cons]
      constructor
      · rintro ⟨rfl, hc, st, hst, hb⟩
        exact ⟨rfl, Or.inr hc, st, hst, hb⟩
      · rintro ⟨rfl, hc | hc, st, hst, hb⟩
        · subst hc
          rw [hst0] at hst
          cases hst
          exact absurd hb hbit
        · exact ⟨rfl, hc, st, hst, hb⟩

/-- Over a readable crate the outer power-down loop completes. -/
theorem pdSlots_complete (k : ℕ) (slots : List (Option Board))
    (h : ∀ ob ∈ slots, ∀ b, ob = some b →
      ∀ ch, ch < b.n_channel → (b.status ch).isSome = true) :
    (pdSlots k slots).2 = true := by
  induction slots generalizing k with
  | nil => rfl
  | cons ob rest ih =>
    have ihr := fun k2 =>
      ih k2 fun x hx b hb => h x (List.mem_cons_of_mem _ hx) b hb
    cases ob with
    | none => simpa [pdSlots] using ihr (k + 1)
    | some b =>
      have hcompl : (pdChans k b (List.range b.n_channel)).2 = true :=
        pdChans_complete k b _ fun ch hch =>
          h (some b) (by simp) b rfl ch (List.mem_range.mp hch)
      simp [pdSlots, hcompl, ihr (k + 1)]

/-- Membership in the write list of the outer power-down loop, over a
readable crate: exactly the channels of present boards whose status has
bit 0 set, with slot indices counted from `k`. -/
theorem pdSlots_mem (k : ℕ) (slots : List (Option Board)) (a c : ℕ)
    (h : ∀ ob ∈ slots, ∀ b, ob = some b →
      ∀ ch, ch < b.n_channel → (b.status ch).isSome = true) :
    (a, c) ∈ (pdSlots k slots).1 ↔
      ∃ i b, slots.get? i = some (some b) ∧ a = k + i ∧
        c < b.n_channel ∧ ∃ st, b.status c = some st ∧ st &&& 1 = 1 := by
  induction slots generalizing k with
  | nil => simp [pdSlots]
  | cons ob rest ih =>
    have hrest : ∀ x ∈ rest, ∀ b, x = some b →
        ∀ ch, ch < b.n_channel → (b.status ch).isSome = true :=
      fun x hx b hb => h x (by simp [hx]) b hb
    have ih2 := ih (k + 1) hrest
    cases ob with
    | none =>
      simp only [pdSlots, ih2]
      constructor
      · rintro ⟨i, b, h1, h2, h3⟩
        exact ⟨i + 1, b, by simpa using h1, by omega, h3⟩
      · rintro ⟨i, b, h1, h2, h3⟩
        cases i with
        | zero => simp at h1
        | succ j =>
          exact ⟨j, b, by simpa using h1, by omega, h3⟩
    | some b0 =>
      have hb0 : ∀ ch ∈ List.range b0.n_channel,
          (b0.status ch).isSome = true :=
        fun ch hch => h (some b0) (by simp) b0 rfl ch (List.mem_range.mp hch)
      have hcompl := pdChans_complete k b0 (List.range b0.n_channel) hb0
      have hmem := pdChans_mem k b0 (List.range b0.n_channel) a c hb0
      simp only [pdSlots, hcompl, if_pos, List.mem_append, hmem, ih2,
        List.mem_range]
      constructor
      · rintro (⟨rfl, hc, hst⟩ | ⟨i, b, h1, h2, h3⟩)
        · exact ⟨0, b0, by simp, by omega, hc, hst⟩
        · exact ⟨i + 1, b, by simpa using h1, by omega, h3⟩
      · rintro ⟨i, b, h1, h2, h3⟩
        cases i with
        | zero =>
          simp only [List.get?] at h1
          cases h1
          exact Or.inl ⟨by omega, h3⟩
        | succ j =>
          exact Or.inr ⟨j, b, by simpa using h1, by omega, h3⟩

/-- `allReadable` unfolded to its propositional form. -/
theorem allReadable_iff (slots : List (Option Board)) :
    allReadable slots = true ↔
      ∀ ob ∈ slots, ∀ b, ob = some b →
        ∀ ch, ch < b.n_channel → (b.status ch).isSome = true := by
  rw [allReadable, List.all_eq_true]
  constructor
  · intro h ob hob b hb ch hch
    have h2 := h ob hob
    rw [hb] at h2
    simp only [List.all_eq_true, List.mem_range] at h2
    exact h2 ch hch
  · intro h ob hob
    cases ob with
    | none => rfl
    | some b =>
      simp only [List.all_eq_true, List.mem_range]
      exact fun ch hch => h (some b) hob b rfl ch hch

/-- C9. On a crate whose present channels all have readable Status words,
`power_down_all_channels` completes and issues a `Pw := False` write to a
`(slot, ch)` pair exactly when slot `slot` holds a board, `ch` is one of
its channels, and the channel status has the on-bit (`status & 0x1`) set;
every channel whose on-bit is clear receives no write. -/
theorem power_down_exactly (slots : List (Option Board))
    (h : allReadable slots = true) (slot ch : ℕ) :
    (power_down_all_channels slots).2 = true ∧
      ((slot, ch) ∈ (power_down_all_channels slots).1 ↔
        ∃ b, slots.get? slot = some (some b) ∧ ch < b.n_channel ∧
          ∃ st, b.status ch = some st ∧ st &&& 1 = 1) := by
  have hr := (allReadable_iff slots).mp h
  refine ⟨pdSlots_complete 0 slots hr, ?_⟩
  rw [power_down_all_channels, pdSlots_mem 0 slots slot ch hr]
  constructor
  · rintro ⟨i, b, h1, h2, h3⟩
    have hi : i = slot := by omega
    subst hi
    exact ⟨b, h1, h3⟩
  · rintro ⟨b, h1, h2⟩
    exact ⟨slot, b, h1, by omega, h2⟩

/-- Witness for C9: on the demonstration crate the sweep writes to board 1
channel 0, whose on-bit is set. -/
theorem power_down_exactly_witness :
    (1, 0) ∈ (power_down_all_channels demoCrate).1 :=
  (power_down_exactly demoCrate (by decide) 1 0).2.mpr
    ⟨demoBoard, rfl, by norm_num [demoBoard], 1, rfl, by decide⟩

end CAENHV
